import Mathlib

set_option maxHeartbeats 1000000

/-!
Shallow embedding of the math-ai query-orchestration engine.

Sources embedded:
* `src/utils/guardrails.py` — input/output guardrail decision logic;
* `src/tools/rag_search.py` — retrieval tool;
* `src/tools/web_search.py` — web-search tool;
* `src/agent.py` — `MathExpertWithMemory`: session store, conversation
  history window, and the query orchestrator
  `handle_math_query_with_memory`.

External services (the classification model, the embedding service, the
vector store, the HTTP client, the synthesis run) are modelled as explicit
environment parameters: total functions from inputs to outcomes, where an
outcome may be an error to model a raised exception.
-/

/-! ### Guardrails (src/utils/guardrails.py) -/

/-- `MathInputValidationGuardrail` / `MathOutputValidationGuardrail`:
both pydantic models have the same three fields. -/
structure ValidationResult where
  is_math_related : Bool
  is_appropriate : Bool
  reasoning : String
deriving DecidableEq

/-- Outcome of the internal classification call (`Runner.run` on the
guardrail agent): either a structured `ValidationResult`, or a raised
exception carrying its message. -/
inductive ClassifierOutcome where
  | ok : ValidationResult → ClassifierOutcome
  | err : String → ClassifierOutcome
deriving DecidableEq

/-- The `output_info` attached to a `GuardrailFunctionOutput`: the
validation result on the happy path, or the error payload dict
`{"error": str(e)}` on the fail-open path. -/
inductive GuardrailInfo where
  | validation : ValidationResult → GuardrailInfo
  | errorPayload : String → GuardrailInfo
deriving DecidableEq

/-- `GuardrailFunctionOutput` from the agents library: the fields the
guardrail functions construct. -/
structure GuardrailFunctionOutput where
  output_info : GuardrailInfo
  tripwire_triggered : Bool
deriving DecidableEq

/-- `math_input_guardrail_simple` (guardrails.py lines 91-125), as a
function of the classification call's outcome.  On success it computes
`should_trip = not (is_math_related and is_appropriate)`; on an exception
it returns `tripwire_triggered=False` with the error as payload. -/
def math_input_guardrail_simple (c : ClassifierOutcome) : GuardrailFunctionOutput :=
  match c with
  | .ok v => { output_info := .validation v
               tripwire_triggered := !(v.is_math_related && v.is_appropriate) }
  | .err e => { output_info := .errorPayload e
                tripwire_triggered := false }

/-- `math_output_guardrail_simple` (guardrails.py lines 127-164).  The
decision logic is textually identical to the input guardrail:
`should_trip = not (validation_result.is_math_related and
validation_result.is_appropriate)`, with the same fail-open except
branch. -/
def math_output_guardrail_simple (c : ClassifierOutcome) : GuardrailFunctionOutput :=
  match c with
  | .ok v => { output_info := .validation v
               tripwire_triggered := !(v.is_math_related && v.is_appropriate) }
  | .err e => { output_info := .errorPayload e
                tripwire_triggered := false }


/-! ### Retrieval tool (src/tools/rag_search.py) -/

/-- A Qdrant `ScoredPoint`: a string payload dict plus a score.  The
similarity score is a float in the source; no claim computes with it, so
it is carried as an `Int`. -/
structure ScoredPoint where
  payload : List (String × String)
  score : Int
deriving DecidableEq

/-- `payload.get(key, "")`. -/
def payloadGet (payload : List (String × String)) (key : String) : String :=
  match payload.lookup key with
  | some v => v
  | none => ""

/-- `RAGSearchResult` pydantic model.  The Python field `section` is a
Lean keyword and is rendered `section_label`. -/
structure RAGSearchResult where
  content_id : String
  problem : String
  solution : String
  section_label : String
  difficulty_level : String
  similarity_score : Int
deriving DecidableEq

/-- Environment of `rag_search`: the embedding service
(`generate_embedding`, which re-raises its errors) and the Qdrant search
call (a function of the query vector and the `limit` argument).  An
`Except.error` models a raised exception. -/
structure RagEnv where
  embedding : String → Except String (List Int)
  search : List Int → Int → Except String (List ScoredPoint)

/-- `point` → `RAGSearchResult` (rag_search.py lines 70-80). -/
def pointToResult (point : ScoredPoint) : RAGSearchResult :=
  { content_id := payloadGet point.payload "content_id"
    problem := payloadGet point.payload "problem"
    solution := payloadGet point.payload "solution"
    section_label := payloadGet point.payload "section"
    difficulty_level := payloadGet point.payload "difficulty_level"
    similarity_score := point.score }

/-- Python `str.strip()`: drop leading and trailing whitespace. -/
def pyStrip (s : String) : String :=
  String.mk (((s.data.dropWhile Char.isWhitespace).reverse.dropWhile
    Char.isWhitespace).reverse)

/-- The body of the `try:` block of `rag_search` (lines 50-89): raise on
blank query (`if not query.strip()`), clamp `num_chunks` with
`max(1, min(num_chunks, 10))`, call the embedding service, call the
vector search, map the points.  A raised exception is an
`Except.error`. -/
def rag_search_body (env : RagEnv) (query : String) (num_chunks : Int) :
    Except String (List RAGSearchResult) :=
  if pyStrip query = "" then .error "Query cannot be empty"
  else
    let limit := max 1 (min num_chunks 10)
    match env.embedding query with
    | .error e => .error e
    | .ok emb =>
      match env.search emb limit with
      | .error e => .error e
      | .ok points => .ok (points.map pointToResult)

/-- `rag_search` (lines 48-93): the whole body is wrapped in
`try: ... except Exception: return []`, so every raised exception —
including the empty-query `ValueError` — is swallowed into an empty
list. -/
def rag_search (env : RagEnv) (query : String) (num_chunks : Int) :
    List RAGSearchResult :=
  match rag_search_body env query num_chunks with
  | .ok results => results
  | .error _ => []

/-! ### Web-search tool (src/tools/web_search.py) -/

/-- One entry of Tavily's `results` list (the fields the code reads). -/
structure TavilyResult where
  title : String
  url : String
  content : String
deriving DecidableEq

/-- The parsed JSON body of a Tavily response: `results` and `answer`. -/
structure TavilyData where
  results : List TavilyResult
  answer : String
deriving DecidableEq

/-- Outcome of the HTTP POST for one query: a response with a status
code and parsed body, or a raised exception. -/
inductive HttpOutcome where
  | response : Nat → TavilyData → HttpOutcome
  | exn : String → HttpOutcome

/-- The per-query entry stored in `results[query]`.  The failure shape
populates `error` and leaves the result fields empty; the success shape
populates `summary`/`answer` and leaves `error` unset. -/
structure QueryEntry where
  error : Option String
  summary : Option String
  search_results : List TavilyResult
  citations : List (String × String)
  result_count : Nat
  answer : Option String
deriving DecidableEq

/-- `{"error": e, "search_results": [], "citations": [], "result_count": 0}`. -/
def emptyQueryEntry (e : String) : QueryEntry :=
  { error := some e, summary := none, search_results := [], citations := []
    result_count := 0, answer := none }

/-- The success entry built at web_search.py lines 86-95. -/
def successQueryEntry (q : String) (data : TavilyData) : QueryEntry :=
  { error := none
    summary := some ("Found " ++ toString data.results.length ++ " sources for \x27" ++ q ++ "\x27")
    search_results := data.results
    citations := data.results.map (fun r => (r.title, r.url))
    result_count := data.results.length
    answer := some data.answer }

/-- The loop body for one query (lines 46-104): an exception or a
non-200 status becomes that query's error entry; a 200 response becomes
its success entry. -/
def processQuery (http : String → HttpOutcome) (q : String) : QueryEntry :=
  match http q with
  | .exn e => emptyQueryEntry e
  | .response code data =>
    if code ≠ 200 then emptyQueryEntry ("API error: " ++ toString code)
    else successQueryEntry q data

/-- The top-level dict returned by `web_search`. -/
structure WebSearchOutput where
  status : String
  error : Option String
  query_count : Option Nat
  results : List (String × QueryEntry)
deriving DecidableEq

/-- Python truthiness of `TAVILY_API_KEY`: falsy when the variable is
unset (`None`) or set to the empty string. -/
def falsyKey : Option String → Bool
  | none => true
  | some s => s == ""

/-- `web_search` (lines 17-112).  The association list `results` keeps
the queries in iteration order; a duplicate query would overwrite its
dict entry in Python, but `processQuery` depends only on the query, so
the entry value is the same either way. -/
def web_search (apiKey : Option String) (http : String → HttpOutcome)
    (queries : List String) : WebSearchOutput :=
  if queries = [] then
    { status := "error", error := some "No search queries provided"
      query_count := none, results := [] }
  else if falsyKey apiKey then
    { status := "error", error := some "Tavily API key not configured"
      query_count := none, results := [] }
  else
    { status := "success", error := none, query_count := some queries.length
      results := queries.map (fun q => (q, processQuery http q)) }


/-! ### Session store and orchestrator (src/agent.py, `MathExpertWithMemory`) -/

/-- One conversation-history entry (agent.py lines 123-127): the
`timestamp` field actually stores the first 8 characters of a fresh
uuid. -/
structure Exchange where
  query : String
  response : String
  timestamp : String
deriving DecidableEq

/-- One entry of `self.sessions` (agent.py lines 109-116). -/
structure Session where
  session_id : String
  user_id : String
  created_at : String
  last_activity : String
  total_queries : Nat
  conversation_history : List Exchange
deriving DecidableEq

/-- `self.sessions`, the session dict, modelled as a partial map. -/
abbrev Sessions := String → Option Session

/-- The fresh-session branch of `get_or_create_session` (lines 104-118).
`freshId` stands for the `str(uuid.uuid4())` produced by
`generate_session_id`, `now` for `datetime.datetime.now().isoformat()`. -/
def createSession (sessions : Sessions) (user_id freshId now : String) :
    Sessions × String :=
  (fun k => if k = freshId then
      some { session_id := freshId, user_id := user_id, created_at := now
             last_activity := now, total_queries := 1
             conversation_history := [] }
    else sessions k,
   freshId)

/-- `get_or_create_session` (lines 96-118).  The Python guard is
`if session_id and session_id in self.sessions:` — a `None` or empty
session id, or an unknown one, silently yields a fresh session. -/
def get_or_create_session (sessions : Sessions) (session_id : Option String)
    (user_id freshId now : String) : Sessions × String :=
  match session_id with
  | some sid =>
    if sid ≠ "" then
      match sessions sid with
      | some s =>
        (fun k => if k = sid then
            some { s with last_activity := now
                          total_queries := s.total_queries + 1 }
          else sessions k,
         sid)
      | none => createSession sessions user_id freshId now
    else createSession sessions user_id freshId now
  | none => createSession sessions user_id freshId now

/-- Lines 123-130 restricted to the history list: append, then if the
length exceeds 3 keep the slice `[-3:]` (drop all but the last 3). -/
def pushHistory (history : List Exchange) (e : Exchange) : List Exchange :=
  let appended := history ++ [e]
  if appended.length > 3 then appended.drop (appended.length - 3) else appended

/-- `add_to_conversation_history` (lines 120-130): a no-op when the
session id is unknown. -/
def add_to_conversation_history (sessions : Sessions)
    (sid query response ts : String) : Sessions :=
  match sessions sid with
  | some s =>
    fun k => if k = sid then
        some { s with conversation_history :=
                 pushHistory s.conversation_history ⟨query, response, ts⟩ }
      else sessions k
  | none => sessions

/-- The conversation history of a session (empty if unknown). -/
def historyOf (sessions : Sessions) (sid : String) : List Exchange :=
  match sessions sid with
  | some s => s.conversation_history
  | none => []

/-- `self.sessions[sid]["total_queries"]` (defaulting to 0 for an
unknown id; after `get_or_create_session` the id is always known). -/
def totalQueriesOf (sessions : Sessions) (sid : String) : Nat :=
  match sessions sid with
  | some s => s.total_queries
  | none => 0

/-- Python `s[:n]`. -/
def pyTake (s : String) (n : Nat) : String := String.mk (s.data.take n)

/-- One rendered exchange of `get_conversation_context` (lines 138-140):
the stored response is cut to its first 500 characters. -/
def formatExchange (i : Nat) (e : Exchange) : String :=
  "\nPREVIOUS QUERY " ++ toString i ++ ": " ++ e.query ++ "\n" ++
  "PREVIOUS RESPONSE " ++ toString i ++ " (Summary): " ++
  pyTake e.response 500 ++ "...\n"

/-- `enumerate(history, 1)` rendered in order. -/
def contextLines : Nat → List Exchange → String
  | _, [] => ""
  | i, e :: rest => formatExchange i e ++ contextLines (i + 1) rest

/-- `get_conversation_context` (lines 132-142). -/
def get_conversation_context (sessions : Sessions) (sid : String) : String :=
  match sessions sid with
  | none => "No previous conversation in this session."
  | some s =>
    if s.conversation_history = [] then
      "No previous conversation in this session."
    else
      "CONVERSATION HISTORY:\n" ++ contextLines 1 s.conversation_history

/-- `MathExpertResponse` pydantic model (guardrails.py lines 29-42). -/
structure MathExpertResponse where
  session_id : String
  problem_analysis : String
  concept_explanation : String
  step_by_step_solution : String
  alternative_methods : List String
  key_formulas_used : List String
  common_mistakes_to_avoid : List String
  related_jee_topics : List String
  difficulty_level : String
  time_to_solve_minutes : Int
  practice_recommendations : String
  memory_insights : String
  personalized_tips : String
deriving DecidableEq

/-- The default back-fills of agent.py lines 174-178.  The fields always
exist on the pydantic model, so `hasattr` is true and only falsiness
(the empty string) triggers the default. -/
def fillDefaults (resp : MathExpertResponse) : MathExpertResponse :=
  let r1 := if resp.memory_insights = "" then
      { resp with memory_insights :=
          "Memory system not available - using session context" }
    else resp
  if r1.personalized_tips = "" then
    { r1 with personalized_tips :=
        "Focus on practice and concept clarity for success" }
  else r1

/-- `f"Method {i+1}: {method}"` lines, numbered from 1. -/
def methodLines : Nat → List String → List String
  | _, [] => []
  | i, m :: rest => ("Method " ++ toString i ++ ": " ++ m) :: methodLines (i + 1) rest

/-- A bulleted block with a fallback line for the empty list. -/
def bulletLines (l : List String) (dflt : String) : String :=
  if l = [] then dflt
  else String.intercalate "\n" (l.map (fun x => "• " ++ x))

/-- The formatted transcript of agent.py lines 181-219.  The incidental
indentation whitespace of the Python triple-quoted f-string literal is
not reproduced; every substituted field and fallback is. -/
def formatResponse (qnum : Nat) (resp : MathExpertResponse) : String :=
  "\n\nMemory Status: disabled (using session context)\nQuery #" ++ toString qnum ++
  "\n\nPROBLEM ANALYSIS:\n" ++ resp.problem_analysis ++
  "\n\nCONCEPT EXPLANATION:\n" ++ resp.concept_explanation ++
  "\n\nSTEP-BY-STEP SOLUTION:\n" ++ resp.step_by_step_solution ++
  "\n\nALTERNATIVE METHODS:\n" ++
  (if resp.alternative_methods = [] then "Standard method provided above"
   else String.intercalate "\n" (methodLines 1 resp.alternative_methods)) ++
  "\n\nKEY FORMULAS USED:\n" ++
  bulletLines resp.key_formulas_used "• Basic math formulas" ++
  "\n\nCOMMON MISTAKES TO AVOID:\n" ++
  bulletLines resp.common_mistakes_to_avoid "• Calculation errors and sign mistakes" ++
  "\n\nRELATED TOPICS:\n" ++
  (if resp.related_jee_topics = [] then "Math fundamentals"
   else String.intercalate ", " resp.related_jee_topics) ++
  "\n\nDIFFICULTY LEVEL: " ++ resp.difficulty_level ++
  "\nESTIMATED TIME TO SOLVE: " ++ toString resp.time_to_solve_minutes ++ " minutes" ++
  "\n\nPRACTICE RECOMMENDATIONS:\n" ++ resp.practice_recommendations ++
  "\n\nMEMORY INSIGHTS:\n" ++ resp.memory_insights ++
  "\n\nPERSONALIZED TIPS:\n" ++ resp.personalized_tips ++
  "\n" ++ String.mk (List.replicate 70 '=') ++ "\n"

/-- The enhanced query assembled at agent.py lines 153-164. -/
def buildEnhancedQuery (csid : String) (qnum : Nat) (context query : String) :
    String :=
  "\nSession ID: " ++ csid ++
  "\nMemory Status: disabled (fallback mode)\nQuery #" ++ toString qnum ++
  "\n\n" ++ context ++
  "\n\nCURRENT USER QUERY: " ++ query ++
  "\n\nPlease provide a comprehensive response using rag_search and web_search." ++
  "\nIf the user refers to \"previous problem\", \"from earlier\", or similar context, use the conversation history above.\n"

/-- Outcome of `Runner.run(self.agent, enhanced_query)`: a structured
final output, one of the two guardrail tripwire exceptions, or any other
exception with its message. -/
inductive RunOutcome where
  | success : MathExpertResponse → RunOutcome
  | inputTripwire : String → RunOutcome
  | outputTripwire : String → RunOutcome
  | raised : String → RunOutcome

/-- The result dict of `handle_math_query_with_memory`.  Keys that a
branch does not set are `none`. -/
structure QueryResult where
  success : Bool
  session_id : Option String
  error : Option String
  error_type : Option String
  response : Option String
  structured_response : Option MathExpertResponse
  session_info : Option Session
  total_queries : Option Nat
  memory_enabled : Option Bool
  has_context : Option Bool
deriving DecidableEq

/-- The failure dict shape of agent.py lines 238-243, 248-253 and
258-263: note it carries the function's `session_id` *argument*. -/
def failureResult (msg : String) (session_id : Option String)
    (etype : String) : QueryResult :=
  { success := false, session_id := session_id, error := some msg
    error_type := some etype, response := none, structured_response := none
    session_info := none, total_queries := none, memory_enabled := none
    has_context := none }

/-- `handle_math_query_with_memory` (agent.py lines 144-263), returning
the updated session store and the result dict.  `freshId`, `now` and
`ts` stand for the uuid/clock reads; `run` is the synthesis call on the
enhanced query.  `memory_enabled` is `self.memory_enabled`, constantly
`False` (line 39). -/
def handle_math_query_with_memory (sessions : Sessions) (query : String)
    (session_id : Option String) (user_id freshId now ts : String)
    (run : String → RunOutcome) : Sessions × QueryResult :=
  let resolved := get_or_create_session sessions session_id user_id freshId now
  let st1 := resolved.1
  let csid := resolved.2
  let context := get_conversation_context st1 csid
  let enhanced := buildEnhancedQuery csid (totalQueriesOf st1 csid) context query
  match run enhanced with
  | .inputTripwire _ =>
    (st1, failureResult "INPUT REJECTED: Please ask math questions only."
      session_id "input_validation")
  | .outputTripwire _ =>
    (st1, failureResult
      "OUTPUT QUALITY CHECK FAILED: Response didn\x27t meet standards. Please try rephrasing."
      session_id "output_validation")
  | .raised e =>
    (st1, failureResult ("SYSTEM ERROR: " ++ e) session_id "system_error")
  | .success resp0 =>
    let resp := fillDefaults { resp0 with session_id := csid }
    let formatted := formatResponse (totalQueriesOf st1 csid) resp
    let st2 := add_to_conversation_history st1 csid query formatted ts
    (st2,
     { success := true
       session_id := some csid
       error := none
       error_type := none
       response := some (pyStrip formatted)
       structured_response := some resp
       session_info := st2 csid
       total_queries := some (totalQueriesOf st2 csid)
       memory_enabled := some false
       has_context := some (decide (1 < (historyOf st2 csid).length)) })

/-! ### Theorems -/

/-- Claim C1: the claim states the output guardrail trips only when the
classification marks the output as both not math-related and not
appropriate, and in particular does not trip on mixed flags.  The code
computes `should_trip = not (is_math_related and is_appropriate)`, which
trips on either flag being false: it trips on `(true, false)` and on
`(false, true)`, contradicting the claim (and the code's own comment,
"only trip if explicitly marked as both non-math-related AND
inappropriate"). -/
theorem C1_output_guardrail_trips_on_mixed_flags :
    (math_output_guardrail_simple
      (.ok { is_math_related := true, is_appropriate := false
             reasoning := "relevant but inappropriate" })).tripwire_triggered = true
    ∧ (math_output_guardrail_simple
      (.ok { is_math_related := false, is_appropriate := true
             reasoning := "appropriate but off-topic" })).tripwire_triggered = true
    ∧ (math_output_guardrail_simple
      (.ok { is_math_related := false, is_appropriate := false
             reasoning := "both fail" })).tripwire_triggered = true :=
  ⟨rfl, rfl, rfl⟩

/-- Claim C5: on an internal error of the classification call, both
guardrails return a non-tripped result carrying the error as payload, so
an internal classifier error never vetoes the pipeline. -/
theorem C5_guardrails_fail_open (e : String) :
    (math_input_guardrail_simple (.err e)).tripwire_triggered = false
    ∧ (math_input_guardrail_simple (.err e)).output_info = .errorPayload e
    ∧ (math_output_guardrail_simple (.err e)).tripwire_triggered = false
    ∧ (math_output_guardrail_simple (.err e)).output_info = .errorPayload e :=
  ⟨rfl, rfl, rfl, rfl⟩

/-- Claim C6: the input guardrail trips exactly when the classification
does not mark the input as both math-related and appropriate; in
particular, when `is_math_related = false` it trips regardless of
`is_appropriate`. -/
theorem C6_input_guardrail_trip_condition :
    (∀ v : ValidationResult,
      (math_input_guardrail_simple (.ok v)).tripwire_triggered
        = !(v.is_math_related && v.is_appropriate))
    ∧ (∀ (app : Bool) (r : String),
      (math_input_guardrail_simple
        (.ok { is_math_related := false, is_appropriate := app
               reasoning := r })).tripwire_triggered = true) :=
  ⟨fun _ => rfl, fun _ _ => rfl⟩

/-- A retrieval environment in which both services succeed and the
vector store finds nothing. -/
def ragEnvOk : RagEnv :=
  { embedding := fun _ => .ok [1], search := fun _ _ => .ok [] }

/-- Claim C2, counterexample: the claim states an empty or
whitespace-only query yields a caller-visible empty-query failure.  In
the code the `ValueError` raised for a blank query sits inside
`rag_search`'s own `try: ... except Exception: return []`, so the caller
receives the plain empty list — exactly the value a successful search
with no hits returns — and no error at all.  At the whitespace query
`"   "` the internal body raises, yet `rag_search` returns `[]`,
indistinguishable from the normal result of the non-empty query
`"math"` against the same services. -/
theorem C2_counterexample_blank_query_returns_normal_empty_list :
    rag_search ragEnvOk "   " 4 = []
    ∧ rag_search ragEnvOk "math" 4 = []
    ∧ rag_search_body ragEnvOk "   " 4 = .error "Query cannot be empty" :=
  ⟨rfl, rfl, rfl⟩

/-- Claim C2, amended: for every empty or whitespace-only query,
`rag_search` raises an internal empty-query `ValueError`, which its own
catch-all handler swallows; the caller receives the empty list — a
normal result — and never observes an error. -/
theorem C2_blank_query_error_swallowed (env : RagEnv) (query : String)
    (n : Int) (h : pyStrip query = "") :
    rag_search_body env query n = .error "Query cannot be empty"
    ∧ rag_search env query n = [] := by
  constructor
  · simp [rag_search_body, h]
  · simp [rag_search, rag_search_body, h]

/-- Witness for `C2_blank_query_error_swallowed` at the concrete
whitespace query `" "`. -/
theorem C2_blank_query_error_swallowed_witness :
    rag_search_body ragEnvOk " " 4 = .error "Query cannot be empty"
    ∧ rag_search ragEnvOk " " 4 = [] :=
  C2_blank_query_error_swallowed ragEnvOk " " 4 rfl

/-- Claim C8: `rag_search` clamps `num_chunks` into `[1, 10]` (the value
actually passed to the vector search is `max 1 (min num_chunks 10)`, and
running with the clamped value is indistinguishable from running with
the original), and a failure of the embedding service or of the vector
search yields the empty list rather than a propagated error. -/
theorem C8_clamping_and_error_containment (env : RagEnv) (query : String)
    (n : Int) :
    ((1 : Int) ≤ max 1 (min n 10) ∧ max 1 (min n 10) ≤ 10
      ∧ rag_search env query n = rag_search env query (max 1 (min n 10)))
    ∧ (∀ e, env.embedding query = .error e → rag_search env query n = [])
    ∧ (∀ emb e, env.embedding query = .ok emb →
        env.search emb (max 1 (min n 10)) = .error e →
        rag_search env query n = []) := by
  have hk1 : (1 : Int) ≤ max 1 (min n 10) := le_max_left _ _
  have hk10 : max 1 (min n 10) ≤ 10 := max_le (by norm_num) (min_le_right _ _)
  have hidem : max 1 (min (max 1 (min n 10)) 10) = max 1 (min n 10) := by
    rw [min_eq_left hk10, max_eq_right hk1]
  refine ⟨⟨hk1, hk10, ?_⟩, ?_, ?_⟩
  · simp only [rag_search, rag_search_body, hidem]
  · intro e he
    by_cases hq : pyStrip query = "" <;>
      simp [rag_search, rag_search_body, hq, he]
  · intro emb e hemb hsearch
    by_cases hq : pyStrip query = "" <;>
      simp [rag_search, rag_search_body, hq, hemb, hsearch]

/-- A retrieval environment whose embedding service is down. -/
def ragEnvEmbedDown : RagEnv :=
  { embedding := fun _ => .error "embedding service down"
    search := fun _ _ => .ok [] }

/-- Witness for `C8_clamping_and_error_containment`: the out-of-range
request `num_chunks = 99` is clamped to 10, and a failing embedding
service yields `[]`. -/
theorem C8_clamping_and_error_containment_witness :
    rag_search ragEnvEmbedDown "integrate x" 99 = []
    ∧ max 1 (min (99 : Int) 10) = 10 :=
  ⟨(C8_clamping_and_error_containment ragEnvEmbedDown "integrate x" 99).2.1
      "embedding service down" rfl,
   by norm_num⟩

/-- Looking a key up in an association list built by tagging each list
element with a function of itself only depends on the function's value
at that key. -/
lemma lookup_map_entry (f g : String → QueryEntry) (q : String)
    (l : List String) (h : f q = g q) :
    List.lookup q (l.map fun x => (x, f x))
      = List.lookup q (l.map fun x => (x, g x)) := by
  induction l with
  | nil => rfl
  | cons x t ih =>
    by_cases hx : x = q
    · subst hx
      simp [List.lookup, h]
    · have hbeq : (q == x) = false := by
        rw [beq_eq_false_iff_ne]
        exact Ne.symm hx
      simp [List.lookup, hbeq, ih]

/-- Claim C7: `web_search` returns a top-level error status with an
empty results map on an empty query list or a missing credential;
otherwise each query's entry is computed from that query's own HTTP
outcome alone — an exception or a non-200 response is captured into that
entry as an error with empty results, and the entry of any other query
is unaffected by it (two environments agreeing on a query give that
query the same entry). -/
theorem C7_web_search_failure_isolation (apiKey : Option String)
    (http http2 : String → HttpOutcome) (queries : List String) :
    (web_search apiKey http [] =
      { status := "error", error := some "No search queries provided"
        query_count := none, results := [] })
    ∧ (queries ≠ [] → web_search none http queries =
      { status := "error", error := some "Tavily API key not configured"
        query_count := none, results := [] })
    ∧ (queries ≠ [] → falsyKey apiKey = false →
        (web_search apiKey http queries).status = "success"
        ∧ (web_search apiKey http queries).results
            = queries.map (fun q => (q, processQuery http q)))
    ∧ (∀ q e, http q = .exn e → processQuery http q = emptyQueryEntry e)
    ∧ (∀ q code data, http q = .response code data → code ≠ 200 →
        processQuery http q = emptyQueryEntry ("API error: " ++ toString code))
    ∧ (∀ q, http q = http2 q →
        List.lookup q (web_search apiKey http queries).results
          = List.lookup q (web_search apiKey http2 queries).results) := by
  refine ⟨rfl, ?_, ?_, ?_, ?_, ?_⟩
  · intro hne
    simp [web_search, hne, falsyKey]
  · intro hne hkey
    constructor <;> simp [web_search, hne, hkey]
  · intro q e he
    simp [processQuery, he]
  · intro q code data hresp hcode
    simp [processQuery, hresp, hcode]
  · intro q hq
    by_cases hne : queries = []
    · subst hne; rfl
    · by_cases hkey : falsyKey apiKey = true
      · simp [web_search, hne, hkey]
      · have hkey' : falsyKey apiKey = false := by
          cases hfk : falsyKey apiKey
          · rfl
          · exact absurd hfk hkey
        have hpq : processQuery http q = processQuery http2 q := by
          unfold processQuery
          rw [hq]
        simp only [web_search, if_neg hne, hkey', Bool.false_eq_true, if_false]
        exact lookup_map_entry _ _ q queries hpq

/-- An HTTP environment in which the query `"bad"` gets a 500 response
and every other query succeeds with one result. -/
def httpW : String → HttpOutcome := fun q =>
  if q = "bad" then .response 500 { results := [], answer := "" }
  else .response 200
    { results := [{ title := "T", url := "U", content := "C" }], answer := "A" }

/-- Witness for `C7_web_search_failure_isolation`: empty batch gives the
top-level error; the simulated 500 for `"bad"` is captured into its own
entry; the sibling entry for `"good"` in the same call is its normal
success entry. -/
theorem C7_web_search_failure_isolation_witness :
    web_search (some "key") httpW [] =
      { status := "error", error := some "No search queries provided"
        query_count := none, results := [] }
    ∧ processQuery httpW "bad" = emptyQueryEntry "API error: 500"
    ∧ (web_search (some "key") httpW ["good", "bad"]).results
        = [("good", processQuery httpW "good"), ("bad", processQuery httpW "bad")] :=
  ⟨(C7_web_search_failure_isolation (some "key") httpW httpW ["good", "bad"]).1,
   (C7_web_search_failure_isolation (some "key") httpW httpW ["good", "bad"]).2.2.2.2.1
     "bad" 500 { results := [], answer := "" } rfl (by decide),
   ((C7_web_search_failure_isolation (some "key") httpW httpW ["good", "bad"]).2.2.1
     (by decide) rfl).2⟩

/-- Python `l[-n:]`: the `n` most recent entries of `l` (all of `l` when
it is shorter). -/
def lastN (n : Nat) (l : List Exchange) : List Exchange :=
  l.drop (l.length - n)

lemma lastN_of_le {n : Nat} {l : List Exchange} (h : l.length ≤ n) :
    lastN n l = l := by
  unfold lastN
  rw [Nat.sub_eq_zero_of_le h]
  exact List.drop_zero _

lemma lastN_length_le (n : Nat) (l : List Exchange) :
    (lastN n l).length ≤ n := by
  unfold lastN
  rw [List.length_drop]
  omega

/-- Appending one exchange and truncating to the last 3 is exactly
taking the last 3 of the appended list. -/
lemma pushHistory_eq_lastN (h : List Exchange) (e : Exchange) :
    pushHistory h e = lastN 3 (h ++ [e]) := by
  unfold pushHistory lastN
  by_cases hl : (h ++ [e]).length > 3
  · rw [if_pos hl]
  · rw [if_neg hl, Nat.sub_eq_zero_of_le (Nat.le_of_not_lt hl)]
    exact (List.drop_zero _).symm

/-- Truncating before appending loses nothing the final truncation
would have kept. -/
lemma lastN_append_single (l : List Exchange) (e : Exchange) :
    lastN 3 (lastN 3 l ++ [e]) = lastN 3 (l ++ [e]) := by
  unfold lastN
  rcases le_or_lt l.length 3 with hle | hgt
  · rw [Nat.sub_eq_zero_of_le hle, List.drop_zero]
  · have hlen3 : l.length - (l.length - 3) = 3 := by omega
    rw [List.length_append, List.length_drop, List.length_append, hlen3]
    have hidx : (3 + [e].length - 3 : Nat) = 1 := rfl
    rw [hidx]
    have hd1 : (l.drop (l.length - 3) ++ [e]).drop 1
        = (l.drop (l.length - 3)).drop 1 ++ [e] := by
      refine List.drop_append_of_le_length ?_
      rw [List.length_drop]
      omega
    have hd2 : (l ++ [e]).drop (l.length + [e].length - 3)
        = l.drop (l.length + [e].length - 3) ++ [e] := by
      refine List.drop_append_of_le_length ?_
      show l.length + 1 - 3 ≤ l.length
      omega
    rw [hd1, hd2, List.drop_drop]
    have hfin : (l.length - 3 + 1 : Nat) = l.length + [e].length - 3 := by
      show l.length - 3 + 1 = l.length + 1 - 3
      omega
    rw [hfin]

lemma pushHistory_lastN (l : List Exchange) (e : Exchange) :
    pushHistory (lastN 3 l) e = lastN 3 (l ++ [e]) := by
  rw [pushHistory_eq_lastN, lastN_append_single]

/-- Folding `pushHistory` over any sequence of exchanges keeps exactly
the last 3 of everything ever appended, in order. -/
lemma foldl_pushHistory_lastN (xs : List Exchange) :
    ∀ l : List Exchange, xs.foldl pushHistory (lastN 3 l) = lastN 3 (l ++ xs) := by
  induction xs with
  | nil => intro l; simp
  | cons x t ih =>
    intro l
    show t.foldl pushHistory (pushHistory (lastN 3 l) x) = _
    rw [pushHistory_lastN, ih (l ++ [x]), List.append_assoc]
    rfl

/-- A sequence of `add_to_conversation_history` calls against one
session id. -/
def appendAll (sessions : Sessions) (sid : String) (xs : List Exchange) :
    Sessions :=
  xs.foldl
    (fun st e => add_to_conversation_history st sid e.query e.response e.timestamp)
    sessions

lemma appendAll_history (xs : List Exchange) :
    ∀ (sessions : Sessions) (sid : String) (s : Session),
      sessions sid = some s →
      appendAll sessions sid xs sid
        = some { s with conversation_history :=
                   xs.foldl pushHistory s.conversation_history } := by
  induction xs with
  | nil =>
    intro st sid s h
    simpa [appendAll] using h
  | cons x t ih =>
    intro st sid s h
    have hstep :
        (add_to_conversation_history st sid x.query x.response x.timestamp) sid
          = some { s with conversation_history :=
                     pushHistory s.conversation_history x } := by
      unfold add_to_conversation_history
      rw [h]
      simp
    have hrec := ih
      (add_to_conversation_history st sid x.query x.response x.timestamp) sid
      { s with conversation_history := pushHistory s.conversation_history x }
      hstep
    simpa [appendAll, List.foldl] using hrec

/-- Claim C4: for every session and every sequence of appended
exchanges, the conversation history has length at most 3 and equals the
3 most recent exchanges in order — the oldest entries are the ones
dropped (FIFO eviction). -/
theorem C4_history_le_three_fifo (sessions : Sessions) (sid : String)
    (s : Session) (xs : List Exchange) (hs : sessions sid = some s)
    (hlen : s.conversation_history.length ≤ 3) :
    ∃ s2, appendAll sessions sid xs sid = some s2
      ∧ s2.conversation_history.length ≤ 3
      ∧ s2.conversation_history = lastN 3 (s.conversation_history ++ xs) := by
  have hfold : xs.foldl pushHistory s.conversation_history
      = lastN 3 (s.conversation_history ++ xs) := by
    rw [← lastN_of_le hlen]
    rw [foldl_pushHistory_lastN xs s.conversation_history]
    rw [lastN_of_le hlen]
  refine ⟨_, appendAll_history xs sessions sid s hs, ?_, hfold⟩
  rw [hfold]
  exact lastN_length_le _ _

/-- A concrete session record with empty history. -/
def sessionW : Session :=
  { session_id := "s1", user_id := "u", created_at := "c"
    last_activity := "c", total_queries := 1, conversation_history := [] }

/-- A session store holding only `sessionW`. -/
def sessionsW : Sessions := fun k => if k = "s1" then some sessionW else none

/-- A small supply of distinct exchanges. -/
def exchangeW (i : Nat) : Exchange :=
  { query := "q" ++ toString i, response := "r" ++ toString i, timestamp := "t" }

/-- Witness for `C4_history_le_three_fifo`: four appended exchanges on a
fresh session leave exactly the last three. -/
theorem C4_history_le_three_fifo_witness :
    ∃ s2, appendAll sessionsW "s1"
        [exchangeW 1, exchangeW 2, exchangeW 3, exchangeW 4] "s1" = some s2
      ∧ s2.conversation_history.length ≤ 3
      ∧ s2.conversation_history
          = lastN 3 (sessionW.conversation_history
              ++ [exchangeW 1, exchangeW 2, exchangeW 3, exchangeW 4]) :=
  C4_history_le_three_fifo sessionsW "s1" sessionW
    [exchangeW 1, exchangeW 2, exchangeW 3, exchangeW 4] rfl (by decide)

/-- The empty session store (a fresh `MathExpertWithMemory`). -/
def emptySessions : Sessions := fun _ => none

/-- The orchestrator run used for the C3 counterexample: no prior
session (`session_id=None`), fresh id `"sid-new"`, and a synthesis call
that raises `"boom"` after the session has been created. -/
def c3run : Sessions × QueryResult :=
  handle_math_query_with_memory emptySessions "q" none "default_user"
    "sid-new" "t0" "ts" (fun _ => .raised "boom")

/-- Claim C3, counterexample: the claim states a failure produced after
session resolution carries the *resolved* session id.  Here the session
is resolved (the store returned in the failure tuple holds the freshly
created session `"sid-new"`), the exception is mapped to
`error_type="system_error"` with the original message — but the failure
dict carries the original `session_id` argument, `None`, not the
resolved `"sid-new"`: the except blocks of agent.py lines 235-263 return
`"session_id": session_id` (the parameter), not `current_session_id`. -/
theorem C3_counterexample_failure_drops_resolved_session_id :
    c3run.2.error_type = some "system_error"
    ∧ c3run.2.error = some "SYSTEM ERROR: boom"
    ∧ (c3run.1 "sid-new").isSome = true
    ∧ c3run.2.session_id = none :=
  ⟨rfl, rfl, rfl, rfl⟩

/-- Claim C3, amended: every failure result — input-guardrail trip,
output-guardrail trip, or unhandled exception — carries the `session_id`
*argument* the caller passed (hence `None` when a new session was minted
during the call, the `sid` field of each `failureResult` below); when
the caller passed the id of an existing session, the resolved id equals
the argument, so the resolved session id is carried.  Unhandled
exceptions always yield `error_type="system_error"` with the original
message, never silently dropped. -/
theorem C3_failure_carries_argument_session_id (sessions : Sessions)
    (query : String) (sid : Option String) (uid fid now ts e : String)
    (run : String → RunOutcome) :
    ((∀ s, run s = .inputTripwire e) →
      (handle_math_query_with_memory sessions query sid uid fid now ts run).2
        = failureResult "INPUT REJECTED: Please ask math questions only."
            sid "input_validation")
    ∧ ((∀ s, run s = .outputTripwire e) →
      (handle_math_query_with_memory sessions query sid uid fid now ts run).2
        = failureResult
            "OUTPUT QUALITY CHECK FAILED: Response didn\x27t meet standards. Please try rephrasing."
            sid "output_validation")
    ∧ ((∀ s, run s = .raised e) →
      (handle_math_query_with_memory sessions query sid uid fid now ts run).2
        = failureResult ("SYSTEM ERROR: " ++ e) sid "system_error")
    ∧ (∀ s0 sidv, sid = some sidv → sidv ≠ "" → sessions sidv = some s0 →
        (get_or_create_session sessions sid uid fid now).2 = sidv) := by
  refine ⟨?_, ?_, ?_, ?_⟩
  · intro h
    simp [handle_math_query_with_memory, h]
  · intro h
    simp [handle_math_query_with_memory, h]
  · intro h
    simp [handle_math_query_with_memory, h]
  · intro s0 sidv hsid hne hknown
    subst hsid
    simp [get_or_create_session, hne, hknown]

/-- Witness for `C3_failure_carries_argument_session_id`: the caller
passed the existing session `"s1"`; an input-guardrail trip, an
output-guardrail trip and an unhandled exception each produce a failure
carrying `some "s1"` — which is the resolved id, since resolution of the
known `"s1"` returns `"s1"` itself. -/
theorem C3_failure_carries_argument_session_id_witness :
    (handle_math_query_with_memory sessionsW "q" (some "s1") "u" "f" "n" "ts"
        (fun _ => .inputTripwire "veto")).2
      = failureResult "INPUT REJECTED: Please ask math questions only."
          (some "s1") "input_validation"
    ∧ (handle_math_query_with_memory sessionsW "q" (some "s1") "u" "f" "n" "ts"
        (fun _ => .outputTripwire "veto")).2
      = failureResult
          "OUTPUT QUALITY CHECK FAILED: Response didn\x27t meet standards. Please try rephrasing."
          (some "s1") "output_validation"
    ∧ (handle_math_query_with_memory sessionsW "q" (some "s1") "u" "f" "n" "ts"
        (fun _ => .raised "kaput")).2
      = failureResult "SYSTEM ERROR: kaput" (some "s1") "system_error"
    ∧ (get_or_create_session sessionsW (some "s1") "u" "f" "n").2 = "s1" :=
  ⟨(C3_failure_carries_argument_session_id sessionsW "q" (some "s1") "u" "f" "n" "ts"
      "veto" (fun _ => .inputTripwire "veto")).1 (fun _ => rfl),
   (C3_failure_carries_argument_session_id sessionsW "q" (some "s1") "u" "f" "n" "ts"
      "veto" (fun _ => .outputTripwire "veto")).2.1 (fun _ => rfl),
   (C3_failure_carries_argument_session_id sessionsW "q" (some "s1") "u" "f" "n" "ts"
      "kaput" (fun _ => .raised "kaput")).2.2.1 (fun _ => rfl),
   (C3_failure_carries_argument_session_id sessionsW "q" (some "s1") "u" "f" "n" "ts"
      "kaput" (fun _ => .raised "kaput")).2.2.2 sessionW "s1" rfl (by decide) rfl⟩

/-- On the success path, `handle_math_query_with_memory` reduces to the
explicit success tuple. -/
lemma handle_success_eq (sessions : Sessions) (query : String)
    (sid : Option String) (uid fid now ts : String)
    (run : String → RunOutcome) (resp : MathExpertResponse)
    (h : ∀ s, run s = .success resp) :
    handle_math_query_with_memory sessions query sid uid fid now ts run
      = (let resolved := get_or_create_session sessions sid uid fid now
         let st1 := resolved.1
         let csid := resolved.2
         let resp2 := fillDefaults { resp with session_id := csid }
         let formatted := formatResponse (totalQueriesOf st1 csid) resp2
         let st2 := add_to_conversation_history st1 csid query formatted ts
         (st2,
          { success := true
            session_id := some csid
            error := none
            error_type := none
            response := some (pyStrip formatted)
            structured_response := some resp2
            session_info := st2 csid
            total_queries := some (totalQueriesOf st2 csid)
            memory_enabled := some false
            has_context := some (decide (1 < (historyOf st2 csid).length)) })) := by
  unfold handle_math_query_with_memory
  simp only [h]

lemma fillDefaults_session_id (r : MathExpertResponse) :
    (fillDefaults r).session_id = r.session_id := by
  unfold fillDefaults
  by_cases h1 : r.memory_insights = "" <;>
    by_cases h2 : r.personalized_tips = "" <;>
      simp [h1, h2]

/-- Claim C9: on every successful query the orchestrator overwrites the
structured response's `session_id` with the resolved session id, so the
returned `StructuredResponse`'s `session_id` equals the success result's
`session_id` — whatever `session_id` the synthesis output carried. -/
theorem C9_structured_response_session_id_overwritten (sessions : Sessions)
    (query : String) (sid : Option String) (uid fid now ts : String)
    (run : String → RunOutcome) (resp : MathExpertResponse)
    (h : ∀ s, run s = .success resp) :
    (handle_math_query_with_memory sessions query sid uid fid now ts run).2.success = true
    ∧ (handle_math_query_with_memory sessions query sid uid fid now ts run).2.session_id
        = some (get_or_create_session sessions sid uid fid now).2
    ∧ ∃ sr,
        (handle_math_query_with_memory sessions query sid uid fid now ts run).2.structured_response
          = some sr
        ∧ some sr.session_id
          = (handle_math_query_with_memory sessions query sid uid fid now ts run).2.session_id := by
  rw [handle_success_eq sessions query sid uid fid now ts run resp h]
  exact ⟨rfl, rfl, _, rfl, by rw [fillDefaults_session_id]⟩

/-- A concrete synthesis output whose `session_id` is a hallucinated
value, to exercise the orchestrator's overwrite. -/
def respW : MathExpertResponse :=
  { session_id := "hallucinated-id", problem_analysis := "a"
    concept_explanation := "b", step_by_step_solution := "c"
    alternative_methods := [], key_formulas_used := []
    common_mistakes_to_avoid := [], related_jee_topics := []
    difficulty_level := "easy", time_to_solve_minutes := 5
    practice_recommendations := "p", memory_insights := "m"
    personalized_tips := "t" }

/-- Witness for `C9_structured_response_session_id_overwritten`: a first
query with no prior session and a synthesis output carrying
`session_id = "hallucinated-id"`. -/
theorem C9_structured_response_session_id_overwritten_witness :
    (handle_math_query_with_memory emptySessions "solve" none "u" "fresh" "n" "ts"
        (fun _ => .success respW)).2.success = true
    ∧ (handle_math_query_with_memory emptySessions "solve" none "u" "fresh" "n" "ts"
        (fun _ => .success respW)).2.session_id
        = some (get_or_create_session emptySessions none "u" "fresh" "n").2
    ∧ ∃ sr,
        (handle_math_query_with_memory emptySessions "solve" none "u" "fresh" "n" "ts"
            (fun _ => .success respW)).2.structured_response = some sr
        ∧ some sr.session_id
          = (handle_math_query_with_memory emptySessions "solve" none "u" "fresh" "n" "ts"
              (fun _ => .success respW)).2.session_id :=
  C9_structured_response_session_id_overwritten emptySessions "solve" none
    "u" "fresh" "n" "ts" _ respW (fun _ => rfl)

/-- Claim C10: in every success result `has_context` equals the test
"the session's conversation history, after the current exchange has been
appended, holds more than one entry" (evaluated on the returned store at
the resolved id); and with no prior session (`session_id=None`, fresh
session minted) the first query always comes back with
`has_context=false`, even though its own exchange is already stored. -/
theorem C10_has_context_iff_history_gt_one (sessions : Sessions)
    (query : String) (sid : Option String) (uid fid now ts : String)
    (run : String → RunOutcome) (resp : MathExpertResponse)
    (h : ∀ s, run s = .success resp) :
    (handle_math_query_with_memory sessions query sid uid fid now ts run).2.has_context
      = some (decide (1 <
          (historyOf
            (handle_math_query_with_memory sessions query sid uid fid now ts run).1
            (get_or_create_session sessions sid uid fid now).2).length))
    ∧ (handle_math_query_with_memory sessions query none uid fid now ts run).2.has_context
        = some false := by
  constructor
  · rw [handle_success_eq sessions query sid uid fid now ts run resp h]
  · rw [handle_success_eq sessions query none uid fid now ts run resp h]
    simp [get_or_create_session, createSession, add_to_conversation_history,
      historyOf, pushHistory]

/-- Witness for `C10_has_context_iff_history_gt_one`: the first query of
a fresh session stores its own exchange yet reports
`has_context=false`. -/
theorem C10_has_context_iff_history_gt_one_witness :
    (handle_math_query_with_memory emptySessions "solve" none "u" "fresh" "n" "ts"
        (fun _ => .success respW)).2.has_context
      = some (decide (1 <
          (historyOf
            (handle_math_query_with_memory emptySessions "solve" none "u" "fresh" "n" "ts"
              (fun _ => .success respW)).1
            (get_or_create_session emptySessions none "u" "fresh" "n").2).length))
    ∧ (handle_math_query_with_memory emptySessions "solve" none "u" "fresh" "n" "ts"
        (fun _ => .success respW)).2.has_context = some false :=
  C10_has_context_iff_history_gt_one emptySessions "solve" none "u" "fresh" "n" "ts"
    _ respW (fun _ => rfl)

/-- Witness for `C5_guardrails_fail_open` at the concrete classifier
error `"classifier down"`. -/
theorem C5_guardrails_fail_open_witness :
    (math_input_guardrail_simple (.err "classifier down")).tripwire_triggered = false
    ∧ (math_input_guardrail_simple (.err "classifier down")).output_info
        = .errorPayload "classifier down"
    ∧ (math_output_guardrail_simple (.err "classifier down")).tripwire_triggered = false
    ∧ (math_output_guardrail_simple (.err "classifier down")).output_info
        = .errorPayload "classifier down" :=
  C5_guardrails_fail_open "classifier down"
